import Mathlib

/-!
A shallow embedding of the CDN DNSSEC key lifecycle manager of the
Traffic Control control plane: the rotation `generateStoreDNSSECKeys` and
the handlers `CreateDNSSECKeys` / `DeleteDNSSECKeys` (package `cdn`), and
the transaction helper `FinishTx` and the single-row read helpers
(package `dbhelpers`).  External collaborators whose sources are not part
of the extract (the Riak KV facade of `riaksvc`, the key minting and
example-URL synthesis of package `deliveryservice`, and the `tc` data
types) are modelled from the specification; each such definition carries
a doc comment starting with `Modelled from the spec`.
-/

/-- Modelled from the spec: the `ds-record` of a KSK (algorithm,
digest-type, digest), Go type `tc.DNSSECKeyDSRecordV11`, which is not in
the extract. -/
structure DNSSECKeyDSRecordV11 where
  Algorithm : Int
  DigestType : Int
  Digest : String
deriving DecidableEq, Repr

/-- Modelled from the spec: one DNSSEC key record (Go type
`tc.DNSSECKeyV11`, not in the extract): inception and expiration in unix
seconds, zone name, ttl in seconds, status `new` or `existing`, opaque
public and private key material, and an optional DS record. -/
structure DNSSECKeyV11 where
  InceptionDateUnix : Int
  ExpirationDateUnix : Int
  Name : String
  TTLSeconds : Nat
  Status : String
  EffectiveDateUnix : Int
  Public : String
  Private : String
  DSRecord : Option DNSSECKeyDSRecordV11
deriving DecidableEq, Repr

/-- Modelled from the spec: an ordered KSK sequence and an ordered ZSK
sequence (Go type `tc.DNSSECKeySet`, fields in declaration order ZSK then
KSK); index 0 is the active key. -/
structure DNSSECKeySet where
  ZSK : List DNSSECKeyV11
  KSK : List DNSSECKeyV11
deriving DecidableEq, Repr

/-- Modelled from the spec: the per-CDN bundle, a mapping from zone name
to key set (Go type `tc.DNSSECKeys`, a Go map).  Go maps are embedded as
association lists with the lookup and overwrite operations below. -/
abbrev DNSSECKeys := List (String × DNSSECKeySet)

/-- The KV store contents: one bundle per CDN name (Riak bucket `dnssec`). -/
abbrev KVStore := List (String × DNSSECKeys)

/-- Go map read: the value at a key, if present. -/
def mapLookup {α : Type} : List (String × α) → String → Option α
  | [], _ => none
  | (k1, v) :: rest, k => if k1 = k then some v else mapLookup rest k

/-- Go map write: overwrite the binding at a key, or add it. -/
def mapInsert {α : Type} : List (String × α) → String → α → List (String × α)
  | [], k, v => [(k, v)]
  | (k1, v1) :: rest, k, v =>
    if k1 = k then (k, v) :: rest else (k1, v1) :: mapInsert rest k v

/-- Riak delete: remove the binding at a key (absent keys are a no-op). -/
def mapErase {α : Type} (m : List (String × α)) (k : String) : List (String × α) :=
  m.filter (fun p => p.1 ≠ k)

/-- Reinterpret an integer as a signed 64-bit value (Go conversion to
`int64`, also the wraparound of `int64` arithmetic). -/
def int64Wrap (n : Int) : Int :=
  (n + 2 ^ 63) % 2 ^ 64 - 2 ^ 63

/-- Reinterpret a signed 64-bit value as `uint64` (Go conversion). -/
def uint64OfInt64 (n : Int) : Nat :=
  (n % 2 ^ 64).toNat

/-- `time.Duration(ttlSeconds) * time.Second`: the requested seconds
converted to a Go `time.Duration` (an `int64` count of nanoseconds, with
`int64` wraparound). -/
def goSecondsToDuration (ttlSeconds : Nat) : Int :=
  int64Wrap (int64Wrap (ttlSeconds : Int) * 1000000000)

/-- `uint64(ttl / time.Second)`: Go `int64` division truncates toward
zero and the quotient is reinterpreted as `uint64`. -/
def ttlSecondsStored (ttlSeconds : Nat) : Nat :=
  uint64OfInt64 (Int.tdiv (goSecondsToDuration ttlSeconds) 1000000000)

/-- `cdn.CDNDNSSECKeyType`. -/
def CDNDNSSECKeyType : String := "dnssec"

/-- `cdn.DNSSECStatusExisting`. -/
def DNSSECStatusExisting : String := "existing"

/-- Modelled from the spec: `tc.DNSSECKeyStatusNew`, the status of a key
at mint time. -/
def DNSSECKeyStatusNew : String := "new"

/-- Modelled from the spec: the delivery-service type enum (`tc.DSType`,
not in the extract): DNS, HTTP, ANY_MAP, STEERING and friends. -/
inductive DSType where
  | HTTP
  | HTTPNoCache
  | HTTPLive
  | HTTPLiveNatnl
  | DNS
  | DNSLive
  | DNSLiveNatnl
  | AnyMap
  | Steering
  | ClientSteering
  | Invalid
deriving DecidableEq, Repr

/-- Modelled from the spec: `tc.DSType.IsHTTP`, true for the HTTP-family
types. -/
def DSType.IsHTTP : DSType → Bool
  | .HTTP | .HTTPNoCache | .HTTPLive | .HTTPLiveNatnl => true
  | _ => false

/-- Modelled from the spec: `tc.DSType.IsDNS`, true for the DNS-family
types. -/
def DSType.IsDNS : DSType → Bool
  | .DNS | .DNSLive | .DNSLiveNatnl => true
  | _ => false

/-- `cdn.CDNDS`: basic data for one delivery service on a CDN, as
returned by `getCDNDeliveryServices` (the Go field `Type` is rendered
`dsType`). -/
structure CDNDS where
  Name : String
  Protocol : Option Int
  dsType : DSType
  RoutingName : String
deriving DecidableEq, Repr

/-- Modelled from the spec: a match-list entry of a delivery service
(`tc.DeliveryServiceMatch`); only HOST_REGEXP entries contribute to
example-URL synthesis. -/
inductive MatchType where
  | HostRegexp
  | PathRegexp
  | HeaderRegexp
deriving DecidableEq, Repr

/-- Modelled from the spec: one `(match-type, pattern)` pair of a match
list. -/
structure DSMatch where
  mType : MatchType
  Pattern : String
deriving DecidableEq, Repr

abbrev MatchList := List DSMatch

/-- Unescape the regex-escaped dots of a match-list pattern. -/
def unescapeDots : List Char → List Char
  | [] => []
  | '\\' :: '.' :: rest => '.' :: unescapeDots rest
  | c :: rest => c :: unescapeDots rest

/-- Modelled from the spec: hostname synthesis of the ExampleURLBuilder:
a leading wildcard is replaced by the routing name and a trailing
wildcard by the CDN domain, so `.*\.example\..*` becomes
`<routingName>.example.<cdnDomain>`. -/
def synthHostname (routingName pattern cdnDomain : String) : String :=
  let p := unescapeDots pattern.data
  let p := if ['.', '*'].isPrefixOf p then routingName.data ++ p.drop 2 else p
  let p := if ['.', '*'].isSuffixOf p then p.take (p.length - 2) ++ cdnDomain.data else p
  String.mk p

/-- Modelled from the spec: `deliveryservice.MakeExampleURLs` (not in the
extract).  Ineligible types yield no URLs; each HOST_REGEXP entry yields
one hostname; the protocol bitfield dictates the scheme, values 2 and 3
emitting both; insertion order is preserved and nothing is deduplicated. -/
def deliveryservice.MakeExampleURLs (protocol : Option Int) (dsType : DSType)
    (routingName : String) (matchList : MatchList) (cdnDomain : String) : List String :=
  if !(dsType.IsHTTP || dsType.IsDNS) then []
  else
    let hosts := (matchList.filter (fun m => m.mType = MatchType.HostRegexp)).map
      (fun m => synthHostname routingName m.Pattern cdnDomain)
    let schemes : List String :=
      match protocol with
      | some 0 => ["http://"]
      | some 1 => ["https://"]
      | some 2 => ["http://", "https://"]
      | some 3 => ["http://", "https://"]
      | _ => ["http://"]
    hosts.flatMap (fun h => schemes.map (fun s => s ++ h))

/-- Modelled from the spec: `KeyMaterialFactory.mint` — one key record
with status `new`, inception the effective date, the given expiration and
ttl; the asymmetric key material is opaque and is modelled by
deterministic placeholder strings. -/
def mintKey (zone : String) (ttlStored : Nat) (inception expiration : Int) : DNSSECKeyV11 :=
  { InceptionDateUnix := inception
    ExpirationDateUnix := expiration
    Name := zone
    TTLSeconds := ttlStored
    Status := DNSSECKeyStatusNew
    EffectiveDateUnix := inception
    Public := "public key for " ++ zone
    Private := "private key for " ++ zone
    DSRecord := none }

/-- Modelled from the spec: `deliveryservice.CreateDNSSECKeys` (not in
the extract).  Per the spec a KSK and a ZSK are minted for each example
URL with `inception = effectiveDate` and
`expiration = effectiveDate + expiryDays * 86400`; with no example URL an
eligible delivery service cannot be keyed and the call fails with the
spec's MatchListError.  The CDN key set argument is consulted only for
the ttl override, which the rotation always forces, so it is unused. -/
def deliveryservice.CreateDNSSECKeys (urls : List String) (_cdnKeys : DNSSECKeySet)
    (ttlStored kExpDays zExpDays : Nat) (eff : Int) : Except String DNSSECKeySet :=
  match urls with
  | [] => .error "MatchListError: no example URLs for delivery service"
  | _ :: _ =>
    .ok
      { ZSK := urls.map (fun u => mintKey u ttlStored eff (eff + (zExpDays : Int) * 86400))
        KSK := urls.map (fun u => mintKey u ttlStored eff (eff + (kExpDays : Int) * 86400)) }

/-- One demoted copy of a key: `ksk := set.KSK[0]` then
`ksk.Status = DNSSECStatusExisting`, `ksk.TTLSeconds = uint64(ttl/time.Second)`,
`ksk.ExpirationDateUnix = effectiveDateUnix` (lines 88-91 and 95-98 of the
rotation). -/
def demoteKey (k : DNSSECKeyV11) (ttlStored : Nat) (eff : Int) : DNSSECKeyV11 :=
  { k with Status := DNSSECStatusExisting, TTLSeconds := ttlStored, ExpirationDateUnix := eff }

/-- The `oldKeysExist` branch of `generateStoreDNSSECKeys`: read the CDN
apex entry of the old bundle (a Go two-value map read, zero set when
absent); when the KSK list is non-empty append a demoted copy of its
head, likewise for the ZSK list; the result is stored at
`newKeys[cdnName]`. -/
def demoteCDNApex (oldKeys : DNSSECKeys) (cdnName : String) (ttlStored : Nat)
    (eff : Int) : DNSSECKeySet :=
  match mapLookup oldKeys cdnName with
  | none => { ZSK := [], KSK := [] }
  | some s =>
    let ksks :=
      match s.KSK with
      | [] => s.KSK
      | k :: _ => s.KSK ++ [demoteKey k ttlStored eff]
    let zsks :=
      match s.ZSK with
      | [] => s.ZSK
      | z :: _ => s.ZSK ++ [demoteKey z ttlStored eff]
    { ZSK := zsks, KSK := ksks }

/-- One iteration of the delivery-service loop of
`generateStoreDNSSECKeys` (lines 119-137): skip types that are neither
HTTP- nor DNS-family, fail when the match-list mapping has no entry for
the delivery service, otherwise synthesize the example URLs, create the
keys and store them at `newKeys[ds.Name]`. -/
def processDS (cdnDomain : String) (ml : List (String × MatchList)) (cdnKeys : DNSSECKeySet)
    (ttlStored kExpDays zExpDays : Nat) (eff : Int) (acc : DNSSECKeys) (ds : CDNDS) :
    Except String DNSSECKeys :=
  if !(ds.dsType.IsHTTP || ds.dsType.IsDNS) then .ok acc
  else
    match mapLookup ml ds.Name with
    | none => .error ("no regex match list found for delivery service \x27" ++ ds.Name)
    | some matchlist =>
      let exampleURLs := deliveryservice.MakeExampleURLs ds.Protocol ds.dsType ds.RoutingName matchlist cdnDomain
      match deliveryservice.CreateDNSSECKeys exampleURLs cdnKeys ttlStored kExpDays zExpDays eff with
      | .error e => .error ("creating delivery service DNSSEC keys: " ++ e)
      | .ok dsKeys => .ok (mapInsert acc ds.Name dsKeys)

/-- The delivery-service `for` loop: iterate in order, any failing
iteration returns its error at once. -/
def processDSList (cdnDomain : String) (ml : List (String × MatchList)) (cdnKeys : DNSSECKeySet)
    (ttlStored kExpDays zExpDays : Nat) (eff : Int) :
    DNSSECKeys → List CDNDS → Except String DNSSECKeys
  | acc, [] => .ok acc
  | acc, ds :: rest =>
    match processDS cdnDomain ml cdnKeys ttlStored kExpDays zExpDays eff acc ds with
    | .error e => .error e
    | .ok acc2 => processDSList cdnDomain ml cdnKeys ttlStored kExpDays zExpDays eff acc2 rest

/-- `generateStoreDNSSECKeys` up to (but not including) the final
`riaksvc.PutDNSSECKeys`: the bundle that would be written, or the error
returned before any write.  The external reads are passed as results:
`oldKeysRes` is the `riaksvc.GetDNSSECKeys` result ((bundle, exists) or
an error), `dsesRes` the `getCDNDeliveryServices` result and `mlRes` the
`deliveryservice.GetDeliveryServicesMatchLists` result. -/
def generateDNSSECKeysBundle (oldKeysRes : Except String (Option DNSSECKeys))
    (dsesRes : Except String (List CDNDS × String))
    (mlRes : Except String (List (String × MatchList)))
    (cdnName : String) (ttlSeconds kExpDays zExpDays : Nat) (effectiveDateUnix : Int) :
    Except String DNSSECKeys :=
  let ttlStored := ttlSecondsStored ttlSeconds
  match oldKeysRes with
  | .error e => .error ("getting old dnssec keys: " ++ e)
  | .ok none => .error "getting DNSSec keys from Riak: no DNSSec keys for CDN"
  | .ok (some oldKeys) =>
    let newKeys0 : DNSSECKeys :=
      mapInsert [] cdnName (demoteCDNApex oldKeys cdnName ttlStored effectiveDateUnix)
    let cdnKeys := (mapLookup newKeys0 cdnName).getD { ZSK := [], KSK := [] }
    match dsesRes with
    | .error e => .error ("getting cdn delivery services: " ++ e)
    | .ok (dses, cdnDomain) =>
      match mlRes with
      | .error e => .error ("getting delivery service matchlists: " ++ e)
      | .ok ml =>
        processDSList cdnDomain ml cdnKeys ttlStored kExpDays zExpDays effectiveDateUnix newKeys0 dses

/-- `cdn.generateStoreDNSSECKeys` acting on the KV store.  Modelled from
the spec: `riaksvc.GetDNSSECKeys` and `riaksvc.PutDNSSECKeys` (not in the
extract) are the whole-bundle read and write under the key
`(cdnName, "dnssec")`.  An error is returned before the write, leaving
the store unchanged; on success the new bundle replaces the old one. -/
def generateStoreDNSSECKeys (store : KVStore)
    (dsesRes : Except String (List CDNDS × String))
    (mlRes : Except String (List (String × MatchList)))
    (cdnName : String) (ttlSeconds kExpDays zExpDays : Nat) (effectiveDateUnix : Int) :
    KVStore × Option String :=
  match generateDNSSECKeysBundle (.ok (mapLookup store cdnName)) dsesRes mlRes
      cdnName ttlSeconds kExpDays zExpDays effectiveDateUnix with
  | .error e => (store, some e)
  | .ok newKeys => (mapInsert store cdnName newKeys, none)

/-- `tc.CDNDNSSECGenerateReq` after the handler has dereferenced the
required pointer fields; only the effective date is optional. -/
structure CDNDNSSECGenerateReq where
  Key : String
  TTL : Nat
  KSKExpirationDays : Nat
  ZSKExpirationDays : Nat
  EffectiveDateUnix : Option Int
deriving DecidableEq, Repr

/-- What a handler leaves behind: the KV store, the commit flag
(`*inf.CommitTx`), the HTTP status and the response body. -/
structure HandlerResult where
  store : KVStore
  commitTx : Bool
  httpStatus : Nat
  response : String
deriving DecidableEq, Repr

/-- `cdn.CreateDNSSECKeys`, the GenerateOrRefresh handler: a parse
failure answers 400 with the commit flag still false; a rotation failure
answers 500 with the commit flag still false; only after
`generateStoreDNSSECKeys` returns without error is `*inf.CommitTx` set
true and 200 returned.  A missing effective date defaults to now. -/
def CreateDNSSECKeys (store : KVStore)
    (dsesRes : Except String (List CDNDS × String))
    (mlRes : Except String (List (String × MatchList)))
    (req : Option CDNDNSSECGenerateReq) (now : Int) : HandlerResult :=
  match req with
  | none =>
    { store := store, commitTx := false, httpStatus := 400, response := "parsing request" }
  | some r =>
    let eff := r.EffectiveDateUnix.getD now
    match generateStoreDNSSECKeys store dsesRes mlRes r.Key r.TTL r.KSKExpirationDays
        r.ZSKExpirationDays eff with
    | (store2, some e) =>
      { store := store2, commitTx := false, httpStatus := 500,
        response := "generating and storing DNSSEC CDN keys: " ++ e }
    | (store2, none) =>
      { store := store2, commitTx := true, httpStatus := 200,
        response := "Successfully created dnssec keys for " ++ r.Key }

/-- `cdn.DeleteDNSSECKeys`: delete the bundle under the given name.
Modelled from the spec: `riaksvc.DeleteObject` (not in the extract) is
idempotent, so the handler always sets the commit flag and answers 200. -/
def DeleteDNSSECKeys (store : KVStore) (name : String) : HandlerResult :=
  { store := mapErase store name
    commitTx := true
    httpStatus := 200
    response := "Successfully deleted " ++ CDNDNSSECKeyType ++ " for " ++ name }

/-- What `FinishTx` does to the transaction. -/
inductive TxAction where
  | nothing
  | commit
  | rollback
deriving DecidableEq, Repr

/-- `dbhelpers.FinishTx`: nothing for a nil transaction, rollback unless
the commit flag points to true at call time, commit otherwise. -/
def FinishTx (tx : Option Unit) (commit : Bool) : TxAction :=
  match tx with
  | none => .nothing
  | some _ => if !commit then .rollback else .commit

/-- `dbhelpers.FinishTxX`: identical to `FinishTx` for a `sqlx.Tx`. -/
def FinishTxX (tx : Option Unit) (commit : Bool) : TxAction :=
  match tx with
  | none => .nothing
  | some _ => if !commit then .rollback else .commit

/-- The outcome of `tx.QueryRow(...).Scan(...)`: a scanned row,
`sql.ErrNoRows`, or another query failure. -/
inductive ScanResult (α : Type) where
  | row (val : α)
  | noRows
  | failure (msg : String)
deriving DecidableEq, Repr

/-- `dbhelpers.GetParam`: the value of the param, whether it existed, or
any error; `sql.ErrNoRows` yields `("", false, nil)`. -/
def GetParam (q : ScanResult String) (name _configFile : String) :
    String × Bool × Option String :=
  match q with
  | .row v => (v, true, none)
  | .noRows => ("", false, none)
  | .failure e =>
    ("", false, some ("Error querying global paramter \x27" ++ name ++ "\x27: " ++ e))

/-- `dbhelpers.GetDSNameFromID`. -/
def GetDSNameFromID (q : ScanResult String) (_id : Int) :
    String × Bool × Option String :=
  match q with
  | .row v => (v, true, none)
  | .noRows => ("", false, none)
  | .failure e => ("", false, some ("querying delivery service name: " ++ e))

/-- `dbhelpers.GetDSNameAndCDNFromID`. -/
def GetDSNameAndCDNFromID (q : ScanResult (String × String)) (_id : Int) :
    String × String × Bool × Option String :=
  match q with
  | .row v => (v.1, v.2, true, none)
  | .noRows => ("", "", false, none)
  | .failure e => ("", "", false, some ("querying delivery service name: " ++ e))

/-- `dbhelpers.GetProfileNameFromID`. -/
def GetProfileNameFromID (_id : Int) (q : ScanResult String) :
    String × Bool × Option String :=
  match q with
  | .row v => (v, true, none)
  | .noRows => ("", false, none)
  | .failure e => ("", false, some ("querying profile name from id: " ++ e))

/-- `dbhelpers.GetProfileIDFromName`. -/
def GetProfileIDFromName (_name : String) (q : ScanResult Int) :
    Int × Bool × Option String :=
  match q with
  | .row v => (v, true, none)
  | .noRows => (0, false, none)
  | .failure e => (0, false, some ("querying profile id from name: " ++ e))

/-- The post-rotation key-set invariant claimed by the spec: at least one
KSK and one ZSK, and the records at index 0 have status `new`. -/
def keySetFresh (ks : DNSSECKeySet) : Prop :=
  1 ≤ ks.KSK.length ∧ 1 ≤ ks.ZSK.length ∧
    ks.KSK.head?.map (fun r => r.Status) = some DNSSECKeyStatusNew ∧
    ks.ZSK.head?.map (fun r => r.Status) = some DNSSECKeyStatusNew

instance (ks : DNSSECKeySet) : Decidable (keySetFresh ks) := by
  unfold keySetFresh; infer_instance

/-- Substring containment, for claims about error-message contents. -/
def containsSubstr (s sub : String) : Prop :=
  ∃ a b, s = a ++ sub ++ b

/-- A sample KSK record used by concrete runs below. -/
def sampleKSK : DNSSECKeyV11 :=
  { InceptionDateUnix := 0
    ExpirationDateUnix := 1000
    Name := "cdn-a.example.net."
    TTLSeconds := 60
    Status := "new"
    EffectiveDateUnix := 0
    Public := "ksk public material"
    Private := "ksk private material"
    DSRecord := some { Algorithm := 8, DigestType := 2, Digest := "abcd" } }

/-- A sample ZSK record used by concrete runs below. -/
def sampleZSK : DNSSECKeyV11 :=
  { InceptionDateUnix := 0
    ExpirationDateUnix := 1000
    Name := "cdn-a.example.net."
    TTLSeconds := 60
    Status := "new"
    EffectiveDateUnix := 0
    Public := "zsk public material"
    Private := "zsk private material"
    DSRecord := none }

/-- A warm bundle for `cdn-a`: one KSK and one ZSK, both status `new`. -/
def warmBundle : DNSSECKeys :=
  [("cdn-a", { ZSK := [sampleZSK], KSK := [sampleKSK] })]

/-- A KV store holding the warm bundle for `cdn-a`. -/
def warmStore : KVStore := [("cdn-a", warmBundle)]

/-- A concrete HTTP delivery service. -/
def ds1 : CDNDS :=
  { Name := "ds1", Protocol := some 0, dsType := .HTTP, RoutingName := "cdn" }

/-- A concrete ANY_MAP delivery service whose xml-id collides with the
CDN name `cdn-a`. -/
def anyMapDS : CDNDS :=
  { Name := "cdn-a", Protocol := some 0, dsType := .AnyMap, RoutingName := "cdn" }

/-- A concrete ANY_MAP delivery service with a non-colliding xml-id. -/
def otherAnyMapDS : CDNDS :=
  { Name := "ds2", Protocol := some 0, dsType := .AnyMap, RoutingName := "cdn" }

/-- A match-list mapping with one HOST_REGEXP entry for `ds1`. -/
def ml1 : List (String × MatchList) :=
  [("ds1", [{ mType := .HostRegexp, Pattern := ".*\\.ds1\\..*" }])]

theorem mapLookup_mapInsert_self {α : Type} (m : List (String × α)) (k : String) (v : α) :
    mapLookup (mapInsert m k v) k = some v := by
  induction m with
  | nil => simp [mapInsert, mapLookup]
  | cons p rest ih =>
    obtain ⟨k1, v1⟩ := p
    by_cases h : k1 = k <;> simp [mapInsert, mapLookup, h, ih]

theorem mapLookup_mapInsert_ne {α : Type} (m : List (String × α)) (k k2 : String) (v : α)
    (h : k2 ≠ k) : mapLookup (mapInsert m k v) k2 = mapLookup m k2 := by
  induction m with
  | nil => simp [mapInsert, mapLookup, Ne.symm h]
  | cons p rest ih =>
    obtain ⟨k1, v1⟩ := p
    by_cases h1 : k1 = k
    · subst h1
      simp [mapInsert, mapLookup, Ne.symm h]
    · by_cases h2 : k1 = k2 <;> simp [mapInsert, mapLookup, h1, h2, h, ih]

theorem mapLookup_mapInsert_isSome {α : Type} (m : List (String × α)) (k k2 : String) (v : α)
    (h : (mapLookup m k2).isSome = true) :
    (mapLookup (mapInsert m k v) k2).isSome = true := by
  by_cases hk : k2 = k
  · subst hk
    rw [mapLookup_mapInsert_self]
    rfl
  · rw [mapLookup_mapInsert_ne _ _ _ _ hk]
    exact h

theorem int64Wrap_eq_self {n : Int} (h0 : -(2 ^ 63) ≤ n) (h1 : n < 2 ^ 63) :
    int64Wrap n = n := by
  unfold int64Wrap
  have hmod : (n + 2 ^ 63) % 2 ^ 64 = n + 2 ^ 63 :=
    Int.emod_eq_of_lt (by omega) (by omega)
  omega

theorem ttlSecondsStored_eq_of_no_overflow (t : Nat) (h : t * 1000000000 < 2 ^ 63) :
    ttlSecondsStored t = t := by
  have ht : t ≤ t * 1000000000 := by omega
  have ht63 : t < 2 ^ 63 := by omega
  have hcast63 : (t : Int) < 2 ^ 63 := by exact_mod_cast ht63
  have hcast : (t : Int) * 1000000000 < 2 ^ 63 := by exact_mod_cast h
  have hw1 : int64Wrap (t : Int) = (t : Int) :=
    int64Wrap_eq_self (by omega) hcast63
  have hw2 : int64Wrap ((t : Int) * 1000000000) = (t : Int) * 1000000000 :=
    int64Wrap_eq_self (by omega) hcast
  have htd : ((t : Int) * 1000000000).tdiv 1000000000 = (t : Int) := by
    rw [Int.tdiv_eq_ediv (by omega) (by norm_num)]
    exact Int.mul_ediv_cancel _ (by norm_num)
  unfold ttlSecondsStored goSecondsToDuration uint64OfInt64
  rw [hw1, hw2, htd, Int.emod_eq_of_lt (by omega) (by omega)]
  exact Int.toNat_natCast t

theorem createDSDNSSECKeys_fresh (urls : List String) (ck : DNSSECKeySet)
    (t kd zd : Nat) (eff : Int) (ks : DNSSECKeySet)
    (h : deliveryservice.CreateDNSSECKeys urls ck t kd zd eff = .ok ks) :
    keySetFresh ks := by
  unfold deliveryservice.CreateDNSSECKeys at h
  cases urls with
  | nil => simp at h
  | cons u rest =>
    simp only [Except.ok.injEq] at h
    subst h
    refine ⟨by simp, by simp, ?_, ?_⟩ <;> simp [mintKey]

theorem processDS_spec (dom : String) (ml : List (String × MatchList)) (ck : DNSSECKeySet)
    (t kd zd : Nat) (eff : Int) (acc : DNSSECKeys) (ds : CDNDS) (acc2 : DNSSECKeys)
    (h : processDS dom ml ck t kd zd eff acc ds = .ok acc2) :
    (acc2 = acc ∧ (ds.dsType.IsHTTP || ds.dsType.IsDNS) = false) ∨
      ((ds.dsType.IsHTTP || ds.dsType.IsDNS) = true ∧
        ∃ mlst ks, mapLookup ml ds.Name = some mlst ∧
          deliveryservice.CreateDNSSECKeys
            (deliveryservice.MakeExampleURLs ds.Protocol ds.dsType ds.RoutingName mlst dom)
            ck t kd zd eff = .ok ks ∧
          acc2 = mapInsert acc ds.Name ks) := by
  unfold processDS at h
  split at h
  · left
    simp only [Except.ok.injEq] at h
    refine ⟨h.symm, ?_⟩
    rename_i hcond
    revert hcond
    cases ds.dsType.IsHTTP || ds.dsType.IsDNS <;> simp
  · rename_i hcond
    have hel : (ds.dsType.IsHTTP || ds.dsType.IsDNS) = true := by
      revert hcond
      cases ds.dsType.IsHTTP || ds.dsType.IsDNS <;> simp
    right
    refine ⟨hel, ?_⟩
    split at h
    · simp at h
    · rename_i mlst hml
      dsimp only at h
      split at h
      · simp at h
      · rename_i ks hc
        simp only [Except.ok.injEq] at h
        exact ⟨mlst, ks, hml, hc, h.symm⟩

theorem processDS_error_of_missing (dom : String) (ml : List (String × MatchList))
    (ck : DNSSECKeySet) (t kd zd : Nat) (eff : Int) (acc : DNSSECKeys) (ds : CDNDS)
    (helig : (ds.dsType.IsHTTP || ds.dsType.IsDNS) = true)
    (hml : mapLookup ml ds.Name = none) :
    processDS dom ml ck t kd zd eff acc ds =
      .error ("no regex match list found for delivery service \x27" ++ ds.Name) := by
  simp [processDS, helig, hml]

theorem processDSList_preserves_some (dom : String) (ml : List (String × MatchList))
    (ck : DNSSECKeySet) (t kd zd : Nat) (eff : Int) (l : List CDNDS) :
    ∀ acc final, processDSList dom ml ck t kd zd eff acc l = .ok final →
      ∀ nm, (mapLookup acc nm).isSome = true → (mapLookup final nm).isSome = true := by
  induction l with
  | nil =>
    intro acc final h nm hs
    simp only [processDSList, Except.ok.injEq] at h
    exact h ▸ hs
  | cons d rest ih =>
    intro acc final h nm hs
    unfold processDSList at h
    cases hstep : processDS dom ml ck t kd zd eff acc d with
    | error e => rw [hstep] at h; simp at h
    | ok acc2 =>
      rw [hstep] at h
      rcases processDS_spec dom ml ck t kd zd eff acc d acc2 hstep with ⟨rfl, _⟩ | ⟨_, _, ks, _, _, rfl⟩
      · exact ih acc2 final h nm hs
      · exact ih _ final h nm (mapLookup_mapInsert_isSome _ _ _ _ hs)

theorem processDSList_covers (dom : String) (ml : List (String × MatchList))
    (ck : DNSSECKeySet) (t kd zd : Nat) (eff : Int) (l : List CDNDS) :
    ∀ acc final, processDSList dom ml ck t kd zd eff acc l = .ok final →
      ∀ ds ∈ l, (ds.dsType.IsHTTP || ds.dsType.IsDNS) = true →
        (mapLookup final ds.Name).isSome = true := by
  induction l with
  | nil => intro _ _ _ ds hmem; simp at hmem
  | cons d rest ih =>
    intro acc final h ds hmem helig
    unfold processDSList at h
    cases hstep : processDS dom ml ck t kd zd eff acc d with
    | error e => rw [hstep] at h; simp at h
    | ok acc2 =>
      rw [hstep] at h
      rcases List.mem_cons.mp hmem with rfl | hmem2
      · rcases processDS_spec dom ml ck t kd zd eff acc ds acc2 hstep with ⟨_, hfalse⟩ | ⟨_, _, ks, _, _, rfl⟩
        · rw [helig] at hfalse; exact absurd hfalse (by simp)
        · exact processDSList_preserves_some dom ml ck t kd zd eff rest _ final h ds.Name
            (by rw [mapLookup_mapInsert_self]; rfl)
      · exact ih acc2 final h ds hmem2 helig

theorem processDSList_error_of_missing (dom : String) (ml : List (String × MatchList))
    (ck : DNSSECKeySet) (t kd zd : Nat) (eff : Int) (l : List CDNDS) (ds : CDNDS)
    (hmem : ds ∈ l) (helig : (ds.dsType.IsHTTP || ds.dsType.IsDNS) = true)
    (hml : mapLookup ml ds.Name = none) :
    ∀ acc, ∃ e, processDSList dom ml ck t kd zd eff acc l = .error e := by
  induction l with
  | nil => simp at hmem
  | cons d rest ih =>
    intro acc
    unfold processDSList
    cases hstep : processDS dom ml ck t kd zd eff acc d with
    | error e => exact ⟨e, rfl⟩
    | ok acc2 =>
      rcases List.mem_cons.mp hmem with rfl | hmem2
      · rw [processDS_error_of_missing dom ml ck t kd zd eff acc ds helig hml] at hstep
        simp at hstep
      · exact ih hmem2 acc2

theorem processDSList_lookup_of_not_inserted (dom : String) (ml : List (String × MatchList))
    (ck : DNSSECKeySet) (t kd zd : Nat) (eff : Int) (l : List CDNDS) :
    ∀ acc final, processDSList dom ml ck t kd zd eff acc l = .ok final →
      ∀ nm, (∀ d ∈ l, (d.dsType.IsHTTP || d.dsType.IsDNS) = true → d.Name ≠ nm) →
        mapLookup final nm = mapLookup acc nm := by
  induction l with
  | nil =>
    intro acc final h nm _
    simp only [processDSList, Except.ok.injEq] at h
    rw [h]
  | cons d rest ih =>
    intro acc final h nm hnm
    unfold processDSList at h
    cases hstep : processDS dom ml ck t kd zd eff acc d with
    | error e => rw [hstep] at h; simp at h
    | ok acc2 =>
      rw [hstep] at h
      have hrest : ∀ d2 ∈ rest, (d2.dsType.IsHTTP || d2.dsType.IsDNS) = true → d2.Name ≠ nm :=
        fun d2 hm he => hnm d2 (List.mem_cons_of_mem d hm) he
      rcases processDS_spec dom ml ck t kd zd eff acc d acc2 hstep with ⟨rfl, _⟩ | ⟨helig, _, ks, _, _, rfl⟩
      · exact ih acc2 final h nm hrest
      · rw [ih _ final h nm hrest,
          mapLookup_mapInsert_ne _ _ _ _ (Ne.symm (hnm d (List.mem_cons_self d rest) helig))]

theorem processDSList_entries_fresh (dom : String) (ml : List (String × MatchList))
    (ck : DNSSECKeySet) (t kd zd : Nat) (eff : Int) (l : List CDNDS) :
    ∀ acc final, processDSList dom ml ck t kd zd eff acc l = .ok final →
      ∀ nm ks, mapLookup final nm = some ks →
        mapLookup acc nm = some ks ∨ keySetFresh ks := by
  induction l with
  | nil =>
    intro acc final h nm ks hlk
    simp only [processDSList, Except.ok.injEq] at h
    exact Or.inl (h ▸ hlk)
  | cons d rest ih =>
    intro acc final h nm ks hlk
    unfold processDSList at h
    cases hstep : processDS dom ml ck t kd zd eff acc d with
    | error e => rw [hstep] at h; simp at h
    | ok acc2 =>
      rw [hstep] at h
      rcases processDS_spec dom ml ck t kd zd eff acc d acc2 hstep with ⟨rfl, _⟩ | ⟨_, _, ks2, _, hc, rfl⟩
      · exact ih acc2 final h nm ks hlk
      · rcases ih _ final h nm ks hlk with hacc2 | hfresh
        · by_cases hnm : nm = d.Name
          · subst hnm
            rw [mapLookup_mapInsert_self] at hacc2
            cases hacc2
            exact Or.inr (createDSDNSSECKeys_fresh _ _ _ _ _ _ _ hc)
          · rw [mapLookup_mapInsert_ne _ _ _ _ hnm] at hacc2
            exact Or.inl hacc2
        · exact Or.inr hfresh

theorem mapLookup_mapErase_self {α : Type} (m : List (String × α)) (k : String) :
    mapLookup (mapErase m k) k = none := by
  induction m with
  | nil => rfl
  | cons p rest ih =>
    obtain ⟨k1, v1⟩ := p
    by_cases h : k1 = k <;> simp [mapErase, mapLookup, h] <;> simpa [mapErase] using ih

theorem mapErase_mapErase {α : Type} (m : List (String × α)) (k : String) :
    mapErase (mapErase m k) k = mapErase m k := by
  simp [mapErase, List.filter_filter]

theorem generateDNSSECKeysBundle_eq (oldKeys : DNSSECKeys) (dses : List CDNDS)
    (dom : String) (ml : List (String × MatchList)) (cdnName : String)
    (t kd zd : Nat) (eff : Int) :
    generateDNSSECKeysBundle (.ok (some oldKeys)) (.ok (dses, dom)) (.ok ml)
        cdnName t kd zd eff =
      processDSList dom ml (demoteCDNApex oldKeys cdnName (ttlSecondsStored t) eff)
        (ttlSecondsStored t) kd zd eff
        [(cdnName, demoteCDNApex oldKeys cdnName (ttlSecondsStored t) eff)] dses := by
  unfold generateDNSSECKeysBundle
  simp [mapInsert, mapLookup]

theorem generateStoreDNSSECKeys_ok_elim (store : KVStore)
    (dsesRes : Except String (List CDNDS × String))
    (mlRes : Except String (List (String × MatchList)))
    (cdnName : String) (t kd zd : Nat) (eff : Int) (store2 : KVStore)
    (h : generateStoreDNSSECKeys store dsesRes mlRes cdnName t kd zd eff = (store2, none)) :
    ∃ b, generateDNSSECKeysBundle (.ok (mapLookup store cdnName)) dsesRes mlRes
        cdnName t kd zd eff = .ok b ∧ store2 = mapInsert store cdnName b := by
  unfold generateStoreDNSSECKeys at h
  split at h
  · simp at h
  · rename_i b hb
    simp only [Prod.mk.injEq] at h
    exact ⟨b, hb, h.1.symm⟩

theorem generateStoreDNSSECKeys_error (store : KVStore)
    (dsesRes : Except String (List CDNDS × String))
    (mlRes : Except String (List (String × MatchList)))
    (cdnName : String) (t kd zd : Nat) (eff : Int) (e : String)
    (h : generateDNSSECKeysBundle (.ok (mapLookup store cdnName)) dsesRes mlRes
        cdnName t kd zd eff = .error e) :
    generateStoreDNSSECKeys store dsesRes mlRes cdnName t kd zd eff = (store, some e) := by
  unfold generateStoreDNSSECKeys
  rw [h]

theorem demoteCDNApex_eq (oldKeys : DNSSECKeys) (cdnName : String) (ttlStored : Nat)
    (eff : Int) (s : DNSSECKeySet) (k z : DNSSECKeyV11) (ks zs : List DNSSECKeyV11)
    (h : mapLookup oldKeys cdnName = some s) (hk : s.KSK = k :: ks) (hz : s.ZSK = z :: zs) :
    demoteCDNApex oldKeys cdnName ttlStored eff =
      { ZSK := (z :: zs) ++ [demoteKey z ttlStored eff],
        KSK := (k :: ks) ++ [demoteKey k ttlStored eff] } := by
  unfold demoteCDNApex
  rw [h]
  simp [hk, hz]

/-- C3: when the KV store reports no bundle for the requested CDN, the
rotation returns the error `getting DNSSec keys from Riak: no DNSSec keys
for CDN` (which contains `no DNSSec keys for CDN`) and performs no KV
write, leaving every CDN's stored contents unchanged. -/
theorem rotation_missing_bundle_refuses (store : KVStore)
    (dsesRes : Except String (List CDNDS × String))
    (mlRes : Except String (List (String × MatchList)))
    (cdnName : String) (t kd zd : Nat) (eff : Int)
    (h : mapLookup store cdnName = none) :
    generateStoreDNSSECKeys store dsesRes mlRes cdnName t kd zd eff =
        (store, some "getting DNSSec keys from Riak: no DNSSec keys for CDN") ∧
      containsSubstr "getting DNSSec keys from Riak: no DNSSec keys for CDN"
        "no DNSSec keys for CDN" ∧
      ∀ c, mapLookup (generateStoreDNSSECKeys store dsesRes mlRes cdnName t kd zd eff).1 c =
        mapLookup store c := by
  have hb : generateDNSSECKeysBundle (.ok (mapLookup store cdnName)) dsesRes mlRes
      cdnName t kd zd eff =
      .error "getting DNSSec keys from Riak: no DNSSec keys for CDN" := by
    rw [h]
    rfl
  have hmain := generateStoreDNSSECKeys_error store dsesRes mlRes cdnName t kd zd eff _ hb
  refine ⟨hmain, ⟨"getting DNSSec keys from Riak: ", "", by decide⟩, ?_⟩
  intro c
  rw [hmain]

/-- C3 witness: a concrete run against an empty KV store refuses with the
exact message and leaves the store empty. -/
theorem rotation_missing_bundle_refuses_witness :
    mapLookup ([] : KVStore) "cdn-a" = none ∧
      generateStoreDNSSECKeys [] (.ok ([], "example.net")) (.ok []) "cdn-a" 3600 365 30 100 =
        ([], some "getting DNSSec keys from Riak: no DNSSec keys for CDN") :=
  ⟨rfl,
    (rotation_missing_bundle_refuses [] (.ok ([], "example.net")) (.ok [])
      "cdn-a" 3600 365 30 100 rfl).1⟩

/-- C10: demotion never mutates the record at index 0: when the old
bundle's CDN key set is non-empty, the demoted set keeps the whole prior
list unchanged (so index 0 equals the pre-rotation head record field for
field) and only appends one copy carrying status `existing`, the stored
ttl and the effective date as expiration. -/
theorem demotion_preserves_head_record (oldKeys : DNSSECKeys) (cdnName : String)
    (ttlStored : Nat) (eff : Int) (s : DNSSECKeySet) (k z : DNSSECKeyV11)
    (ks zs : List DNSSECKeyV11)
    (h : mapLookup oldKeys cdnName = some s) (hk : s.KSK = k :: ks) (hz : s.ZSK = z :: zs) :
    (demoteCDNApex oldKeys cdnName ttlStored eff).KSK =
        (k :: ks) ++ [{ k with Status := DNSSECStatusExisting, TTLSeconds := ttlStored, ExpirationDateUnix := eff }] ∧
      (demoteCDNApex oldKeys cdnName ttlStored eff).KSK.head? = some k ∧
      (demoteCDNApex oldKeys cdnName ttlStored eff).ZSK =
        (z :: zs) ++ [{ z with Status := DNSSECStatusExisting, TTLSeconds := ttlStored, ExpirationDateUnix := eff }] ∧
      (demoteCDNApex oldKeys cdnName ttlStored eff).ZSK.head? = some z := by
  rw [demoteCDNApex_eq oldKeys cdnName ttlStored eff s k z ks zs h hk hz]
  exact ⟨rfl, rfl, rfl, rfl⟩

/-- C10 witness: the demotion on a concrete one-key bundle keeps the head
record intact and appends the demoted copy at the tail. -/
theorem demotion_preserves_head_record_witness :
    (demoteCDNApex [("cdn-a", { ZSK := [sampleZSK], KSK := [sampleKSK] })] "cdn-a" 3600 500).KSK.head? =
        some sampleKSK ∧
      (demoteCDNApex [("cdn-a", { ZSK := [sampleZSK], KSK := [sampleKSK] })] "cdn-a" 3600 500).ZSK.head? =
        some sampleZSK :=
  ⟨(demotion_preserves_head_record [("cdn-a", { ZSK := [sampleZSK], KSK := [sampleKSK] })]
      "cdn-a" 3600 500 { ZSK := [sampleZSK], KSK := [sampleKSK] } sampleKSK sampleZSK [] []
      rfl rfl rfl).2.1,
    (demotion_preserves_head_record [("cdn-a", { ZSK := [sampleZSK], KSK := [sampleKSK] })]
      "cdn-a" 3600 500 { ZSK := [sampleZSK], KSK := [sampleKSK] } sampleKSK sampleZSK [] []
      rfl rfl rfl).2.2.2⟩

/-- C8: the Delete handler is idempotent: for every store and CDN name the
first delete answers 200 with the success message and removes the bundle,
and a second delete of the same name (now absent) also answers 200 with
the same message and changes nothing. -/
theorem delete_handler_idempotent (store : KVStore) (name : String) :
    (DeleteDNSSECKeys store name).httpStatus = 200 ∧
      (DeleteDNSSECKeys store name).commitTx = true ∧
      (DeleteDNSSECKeys store name).response =
        "Successfully deleted " ++ CDNDNSSECKeyType ++ " for " ++ name ∧
      mapLookup (DeleteDNSSECKeys store name).store name = none ∧
      (DeleteDNSSECKeys (DeleteDNSSECKeys store name).store name).httpStatus = 200 ∧
      (DeleteDNSSECKeys (DeleteDNSSECKeys store name).store name).response =
        "Successfully deleted " ++ CDNDNSSECKeyType ++ " for " ++ name ∧
      (DeleteDNSSECKeys (DeleteDNSSECKeys store name).store name).store =
        (DeleteDNSSECKeys store name).store := by
  refine ⟨rfl, rfl, rfl, ?_, rfl, rfl, ?_⟩
  · exact mapLookup_mapErase_self store name
  · exact mapErase_mapErase store name

/-- C9: every single-row read helper reports a missing row as
`found = false` with a nil error, and returns a non-nil error only when
the scan failed with something other than the no-rows case. -/
theorem db_single_row_helpers_no_rows (name configFile : String) (id : Int) :
    GetParam .noRows name configFile = ("", false, none) ∧
      GetDSNameFromID .noRows id = ("", false, none) ∧
      GetDSNameAndCDNFromID .noRows id = ("", "", false, none) ∧
      GetProfileNameFromID id .noRows = ("", false, none) ∧
      GetProfileIDFromName name .noRows = (0, false, none) ∧
      (∀ q : ScanResult String,
        ((GetParam q name configFile).2.2).isSome = true → ∃ e, q = .failure e) ∧
      (∀ q : ScanResult String,
        ((GetDSNameFromID q id).2.2).isSome = true → ∃ e, q = .failure e) ∧
      (∀ q : ScanResult (String × String),
        ((GetDSNameAndCDNFromID q id).2.2.2).isSome = true → ∃ e, q = .failure e) ∧
      (∀ q : ScanResult String,
        ((GetProfileNameFromID id q).2.2).isSome = true → ∃ e, q = .failure e) ∧
      (∀ q : ScanResult Int,
        ((GetProfileIDFromName name q).2.2).isSome = true → ∃ e, q = .failure e) := by
  refine ⟨rfl, rfl, rfl, rfl, rfl, ?_, ?_, ?_, ?_, ?_⟩ <;>
    intro q h <;>
    cases q with
    | row v => simp [GetParam, GetDSNameFromID, GetDSNameAndCDNFromID,
        GetProfileNameFromID, GetProfileIDFromName] at h
    | noRows => simp [GetParam, GetDSNameFromID, GetDSNameAndCDNFromID,
        GetProfileNameFromID, GetProfileIDFromName] at h
    | failure e => exact ⟨e, rfl⟩

/-- C9 witness: the no-rows case of `GetParam` at concrete arguments, and
a non-nil error arising only from a failing scan. -/
theorem db_single_row_helpers_no_rows_witness :
    GetParam .noRows "tld.ttls" "CRConfig.json" = ("", false, none) ∧
      ∃ e, (ScanResult.failure "connection reset" : ScanResult String) =
        ScanResult.failure e :=
  ⟨(db_single_row_helpers_no_rows "tld.ttls" "CRConfig.json" 0).1,
    (db_single_row_helpers_no_rows "tld.ttls" "CRConfig.json" 0).2.2.2.2.2.1
      (ScanResult.failure "connection reset") rfl⟩

/-- C1 (amended): after every successful rotation, every key set in the
written bundle stored under a name other than the CDN name (every
delivery-service key set) has at least one KSK and one ZSK and its
index-0 records have status `new`; the CDN apex key set satisfies this
too provided the old bundle's entry for the CDN name existed with
non-empty KSK and ZSK lists whose head records had status `new`, because
the rotation preserves the prior apex heads instead of minting new ones.
The original claim asserted this for the apex set unconditionally; see
the counterexample. -/
theorem rotation_written_keysets_fresh (store store2 : KVStore)
    (dsesRes : Except String (List CDNDS × String))
    (mlRes : Except String (List (String × MatchList)))
    (cdnName : String) (t kd zd : Nat) (eff : Int)
    (hrun : generateStoreDNSSECKeys store dsesRes mlRes cdnName t kd zd eff = (store2, none)) :
    ∃ b, mapLookup store2 cdnName = some b ∧
      (∀ nm kset, mapLookup b nm = some kset → nm ≠ cdnName → keySetFresh kset) ∧
      (∀ oldKeys s k z ks zs, mapLookup store cdnName = some oldKeys →
        mapLookup oldKeys cdnName = some s →
        s.KSK = k :: ks → k.Status = DNSSECKeyStatusNew →
        s.ZSK = z :: zs → z.Status = DNSSECKeyStatusNew →
        ∀ kset, mapLookup b cdnName = some kset → keySetFresh kset) := by
  obtain ⟨b, hb, rfl⟩ :=
    generateStoreDNSSECKeys_ok_elim store dsesRes mlRes cdnName t kd zd eff store2 hrun
  refine ⟨b, mapLookup_mapInsert_self _ _ _, ?_⟩
  have hmain : ∀ nm kset, mapLookup b nm = some kset →
      keySetFresh kset ∨ (nm = cdnName ∧ ∃ oldKeys,
        mapLookup store cdnName = some oldKeys ∧
        kset = demoteCDNApex oldKeys cdnName (ttlSecondsStored t) eff) := by
    cases ho : mapLookup store cdnName with
    | none =>
      rw [ho] at hb
      simp [generateDNSSECKeysBundle] at hb
    | some oldKeys =>
      rw [ho] at hb
      cases dsesRes with
      | error e => simp [generateDNSSECKeysBundle] at hb
      | ok p =>
        obtain ⟨dses, dom⟩ := p
        cases mlRes with
        | error e => simp [generateDNSSECKeysBundle] at hb
        | ok ml =>
          rw [generateDNSSECKeysBundle_eq] at hb
          intro nm kset hlk
          rcases processDSList_entries_fresh dom ml _ _ kd zd eff dses _ b hb nm kset hlk with
            hinit | hfresh
          · right
            by_cases hnm : cdnName = nm
            · subst hnm
              simp only [mapLookup, if_true, eq_self_iff_true, Option.some.injEq] at hinit
              exact ⟨rfl, oldKeys, rfl, hinit.symm⟩
            · simp [mapLookup, hnm] at hinit
          · exact Or.inl hfresh
  refine ⟨?_, ?_⟩
  · intro nm kset hlk hne
    rcases hmain nm kset hlk with hfresh | ⟨rfl, _⟩
    · exact hfresh
    · exact absurd rfl hne
  · intro oldKeys s k z ks zs h1 h2 hk hknew hz hznew kset hlk
    rcases hmain cdnName kset hlk with hfresh | ⟨_, oldKeys2, ho2, rfl⟩
    · exact hfresh
    · rw [h1, Option.some.injEq] at ho2
      subst ho2
      rw [demoteCDNApex_eq oldKeys cdnName (ttlSecondsStored t) eff s k z ks zs h2 hk hz]
      refine ⟨by simp, by simp, ?_, ?_⟩ <;> simp [hknew, hznew]

/-- C1 counterexample: a bundle can exist for the CDN while holding no
entry for the CDN name; the rotation then succeeds and writes a bundle
whose CDN apex key set has no KSK and no ZSK, refuting the claim that
every key set in every successfully written bundle is non-empty with a
`new` head. -/
theorem rotation_apex_keyset_can_be_empty_cx :
    generateStoreDNSSECKeys [("cdn-a", [])] (.ok ([], "example.net")) (.ok [])
        "cdn-a" 3600 365 30 100 =
      ([("cdn-a", [("cdn-a", { ZSK := [], KSK := [] })])], none) ∧
      ¬ keySetFresh { ZSK := [], KSK := [] } :=
  ⟨by decide, by decide⟩

/-- C1 witness: a successful rotation over a store whose bundle exists
but has no apex entry still yields fresh key sets for every
delivery-service name; the apex implication is part of the conclusion. -/
theorem rotation_written_keysets_fresh_witness :
    generateStoreDNSSECKeys ([("cdn-a", [])] : KVStore) (.ok ([ds1], "example.net"))
        (.ok ml1) "cdn-a" 3600 365 30 500 =
      ((generateStoreDNSSECKeys ([("cdn-a", [])] : KVStore) (.ok ([ds1], "example.net"))
        (.ok ml1) "cdn-a" 3600 365 30 500).1, none) ∧
      ∃ b, mapLookup (generateStoreDNSSECKeys ([("cdn-a", [])] : KVStore)
          (.ok ([ds1], "example.net")) (.ok ml1) "cdn-a" 3600 365 30 500).1 "cdn-a" =
          some b ∧
        (∀ nm kset, mapLookup b nm = some kset → nm ≠ "cdn-a" → keySetFresh kset) ∧
        (∀ (oldKeys : DNSSECKeys) (s : DNSSECKeySet) (k z : DNSSECKeyV11)
            (ks zs : List DNSSECKeyV11),
          mapLookup ([("cdn-a", [])] : KVStore) "cdn-a" = some oldKeys →
          mapLookup oldKeys "cdn-a" = some s →
          s.KSK = k :: ks → k.Status = DNSSECKeyStatusNew →
          s.ZSK = z :: zs → z.Status = DNSSECKeyStatusNew →
          ∀ kset, mapLookup b "cdn-a" = some kset → keySetFresh kset) := by
  refine ⟨by decide, ?_⟩
  exact rotation_written_keysets_fresh ([("cdn-a", [])] : KVStore) _
    (.ok ([ds1], "example.net")) (.ok ml1) "cdn-a" 3600 365 30 500 (by decide)

/-- C2 (amended): when the old bundle has an apex entry with non-empty
KSK and ZSK lists, the requested ttl does not overflow the Go
seconds-to-Duration round trip (ttlSeconds · 10⁹ < 2⁶³), and no eligible
delivery service shares the CDN name, the written apex entry is the old
list with exactly one copy of the prior head appended at the tail (an
index ≥ 1) carrying status `existing`, ttl-seconds the requested value
and expiration the effective date, removing no prior entry.  The original
claim fails without the overflow bound; see the counterexample. -/
theorem rotation_demotes_prior_head_amended (store store2 : KVStore) (oldKeys : DNSSECKeys)
    (s : DNSSECKeySet) (k z : DNSSECKeyV11) (ks zs : List DNSSECKeyV11)
    (dses : List CDNDS) (cdnDomain : String) (ml : List (String × MatchList))
    (cdnName : String) (t kd zd : Nat) (eff : Int)
    (httl : t * 1000000000 < 2 ^ 63)
    (h1 : mapLookup store cdnName = some oldKeys)
    (h2 : mapLookup oldKeys cdnName = some s)
    (hk : s.KSK = k :: ks) (hz : s.ZSK = z :: zs)
    (hnc : ∀ d ∈ dses, (d.dsType.IsHTTP || d.dsType.IsDNS) = true → d.Name ≠ cdnName)
    (hrun : generateStoreDNSSECKeys store (.ok (dses, cdnDomain)) (.ok ml)
        cdnName t kd zd eff = (store2, none)) :
    ∃ b, mapLookup store2 cdnName = some b ∧
      mapLookup b cdnName = some
        { ZSK := (z :: zs) ++ [{ z with Status := DNSSECStatusExisting, TTLSeconds := t, ExpirationDateUnix := eff }],
          KSK := (k :: ks) ++ [{ k with Status := DNSSECStatusExisting, TTLSeconds := t, ExpirationDateUnix := eff }] } := by
  obtain ⟨b, hb, rfl⟩ :=
    generateStoreDNSSECKeys_ok_elim store _ _ cdnName t kd zd eff store2 hrun
  refine ⟨b, mapLookup_mapInsert_self _ _ _, ?_⟩
  rw [h1, generateDNSSECKeysBundle_eq] at hb
  rw [processDSList_lookup_of_not_inserted cdnDomain ml _ _ kd zd eff dses _ b hb cdnName hnc]
  rw [demoteCDNApex_eq oldKeys cdnName (ttlSecondsStored t) eff s k z ks zs h2 hk hz]
  rw [ttlSecondsStored_eq_of_no_overflow t httl]
  simp [mapLookup, demoteKey]

/-- C2 counterexample: at ttlSeconds = 2⁶³ the Go conversion
`uint64(time.Duration(ttlSeconds) * time.Second / time.Second)` wraps to
0, so the demoted copy of the prior head is appended with ttl-seconds 0,
not the requested ttlSeconds. -/
theorem rotation_demoted_ttl_overflow_cx :
    (generateStoreDNSSECKeys warmStore (.ok ([], "example.net")) (.ok [])
        "cdn-a" 9223372036854775808 365 30 500).2 = none ∧
      mapLookup ((mapLookup (generateStoreDNSSECKeys warmStore (.ok ([], "example.net"))
          (.ok []) "cdn-a" 9223372036854775808 365 30 500).1 "cdn-a").getD []) "cdn-a" =
        some { ZSK := [sampleZSK, { sampleZSK with Status := DNSSECStatusExisting, TTLSeconds := 0, ExpirationDateUnix := 500 }],
               KSK := [sampleKSK, { sampleKSK with Status := DNSSECStatusExisting, TTLSeconds := 0, ExpirationDateUnix := 500 }] } ∧
      (0 : Nat) ≠ 9223372036854775808 :=
  ⟨by decide, by decide, by decide⟩

/-- C2 witness: a rotation with ttl 3600 over the warm store appends the
demoted heads with ttl-seconds 3600 and expiration the effective date. -/
theorem rotation_demotes_prior_head_witness :
    3600 * 1000000000 < 2 ^ 63 ∧
      ∃ b, mapLookup (generateStoreDNSSECKeys warmStore (.ok ([], "example.net"))
          (.ok []) "cdn-a" 3600 365 30 500).1 "cdn-a" = some b ∧
        mapLookup b "cdn-a" = some
          { ZSK := [sampleZSK] ++ [{ sampleZSK with Status := DNSSECStatusExisting, TTLSeconds := 3600, ExpirationDateUnix := 500 }],
            KSK := [sampleKSK] ++ [{ sampleKSK with Status := DNSSECStatusExisting, TTLSeconds := 3600, ExpirationDateUnix := 500 }] } := by
  refine ⟨by norm_num, ?_⟩
  exact rotation_demotes_prior_head_amended warmStore _ warmBundle
    { ZSK := [sampleZSK], KSK := [sampleKSK] } sampleKSK sampleZSK [] [] []
    "example.net" [] "cdn-a" 3600 365 30 500 (by norm_num) (by decide) (by decide)
    (by decide) (by decide) (by simp) (by decide)

/-- C4: for every rotation that returns success, the bundle written to
the KV store contains a key set keyed by the xml-id of every delivery
service of the metadata query whose type is HTTP-family or DNS-family. -/
theorem rotation_success_covers_eligible_dses (store store2 : KVStore) (dses : List CDNDS)
    (cdnDomain : String) (mlRes : Except String (List (String × MatchList)))
    (cdnName : String) (t kd zd : Nat) (eff : Int) (ds : CDNDS)
    (hrun : generateStoreDNSSECKeys store (.ok (dses, cdnDomain)) mlRes
        cdnName t kd zd eff = (store2, none))
    (hmem : ds ∈ dses) (helig : (ds.dsType.IsHTTP || ds.dsType.IsDNS) = true) :
    ∃ b, mapLookup store2 cdnName = some b ∧ (mapLookup b ds.Name).isSome = true := by
  obtain ⟨b, hb, rfl⟩ :=
    generateStoreDNSSECKeys_ok_elim store _ mlRes cdnName t kd zd eff store2 hrun
  refine ⟨b, mapLookup_mapInsert_self _ _ _, ?_⟩
  cases ho : mapLookup store cdnName with
  | none => rw [ho] at hb; simp [generateDNSSECKeysBundle] at hb
  | some oldKeys =>
    rw [ho] at hb
    cases mlRes with
    | error e => simp [generateDNSSECKeysBundle] at hb
    | ok ml =>
      rw [generateDNSSECKeysBundle_eq] at hb
      exact processDSList_covers cdnDomain ml _ _ kd zd eff dses _ b hb ds hmem helig

/-- C4 witness: a successful rotation over the warm store with one HTTP
delivery service writes a bundle containing a key set under its xml-id. -/
theorem rotation_success_covers_eligible_dses_witness :
    generateStoreDNSSECKeys warmStore (.ok ([ds1], "example.net")) (.ok ml1)
        "cdn-a" 3600 365 30 500 =
      ((generateStoreDNSSECKeys warmStore (.ok ([ds1], "example.net")) (.ok ml1)
        "cdn-a" 3600 365 30 500).1, none) ∧
      ds1 ∈ [ds1] ∧ (ds1.dsType.IsHTTP || ds1.dsType.IsDNS) = true ∧
      ∃ b, mapLookup (generateStoreDNSSECKeys warmStore (.ok ([ds1], "example.net"))
          (.ok ml1) "cdn-a" 3600 365 30 500).1 "cdn-a" = some b ∧
        (mapLookup b ds1.Name).isSome = true := by
  refine ⟨by decide, by decide, by decide, ?_⟩
  exact rotation_success_covers_eligible_dses warmStore _ [ds1] "example.net" (.ok ml1)
    "cdn-a" 3600 365 30 500 ds1 (by decide) (by decide) (by decide)

/-- C5: if the match-list mapping has no entry for some eligible delivery
service of the metadata query, the rotation returns an error and performs
no KV write, leaving the stored bundle unchanged. -/
theorem rotation_missing_matchlist_errors (store : KVStore) (dses : List CDNDS)
    (cdnDomain : String) (ml : List (String × MatchList)) (cdnName : String)
    (t kd zd : Nat) (eff : Int) (ds : CDNDS)
    (hmem : ds ∈ dses) (helig : (ds.dsType.IsHTTP || ds.dsType.IsDNS) = true)
    (hml : mapLookup ml ds.Name = none) :
    (generateStoreDNSSECKeys store (.ok (dses, cdnDomain)) (.ok ml)
        cdnName t kd zd eff).1 = store ∧
      ((generateStoreDNSSECKeys store (.ok (dses, cdnDomain)) (.ok ml)
        cdnName t kd zd eff).2).isSome = true := by
  have herr : ∃ e, generateDNSSECKeysBundle (.ok (mapLookup store cdnName))
      (.ok (dses, cdnDomain)) (.ok ml) cdnName t kd zd eff = .error e := by
    cases ho : mapLookup store cdnName with
    | none => exact ⟨_, rfl⟩
    | some oldKeys =>
      obtain ⟨e, he⟩ := processDSList_error_of_missing cdnDomain ml
        (demoteCDNApex oldKeys cdnName (ttlSecondsStored t) eff)
        (ttlSecondsStored t) kd zd eff dses ds hmem helig hml
        [(cdnName, demoteCDNApex oldKeys cdnName (ttlSecondsStored t) eff)]
      exact ⟨e, by rw [generateDNSSECKeysBundle_eq]; exact he⟩
  obtain ⟨e, he⟩ := herr
  rw [generateStoreDNSSECKeys_error store _ _ cdnName t kd zd eff e he]
  exact ⟨rfl, rfl⟩

/-- C5 witness: with the warm store, one eligible delivery service and an
empty match-list mapping, the rotation errors and the store is unchanged. -/
theorem rotation_missing_matchlist_errors_witness :
    mapLookup ([] : List (String × MatchList)) "ds1" = none ∧
      (generateStoreDNSSECKeys warmStore (.ok ([ds1], "example.net")) (.ok [])
        "cdn-a" 3600 365 30 500).1 = warmStore ∧
      ((generateStoreDNSSECKeys warmStore (.ok ([ds1], "example.net")) (.ok [])
        "cdn-a" 3600 365 30 500).2).isSome = true := by
  refine ⟨rfl, ?_, ?_⟩
  · exact (rotation_missing_matchlist_errors warmStore [ds1] "example.net" []
      "cdn-a" 3600 365 30 500 ds1 (by decide) (by decide) rfl).1
  · exact (rotation_missing_matchlist_errors warmStore [ds1] "example.net" []
      "cdn-a" 3600 365 30 500 ds1 (by decide) (by decide) rfl).2

/-- C6 (amended): a delivery service whose type is neither HTTP-family
nor DNS-family contributes no entry of its own, and the written bundle
has no key set under its xml-id provided that xml-id differs from the CDN
name (whose apex entry is always written) and from every eligible
delivery service's xml-id.  The original unconditional claim fails when
the ineligible service is named like the CDN; see the counterexample. -/
theorem ineligible_ds_absent_amended (store store2 : KVStore) (dses : List CDNDS)
    (cdnDomain : String) (ml : List (String × MatchList)) (cdnName : String)
    (t kd zd : Nat) (eff : Int) (ds : CDNDS)
    (hrun : generateStoreDNSSECKeys store (.ok (dses, cdnDomain)) (.ok ml)
        cdnName t kd zd eff = (store2, none))
    (hmem : ds ∈ dses) (hinelig : (ds.dsType.IsHTTP || ds.dsType.IsDNS) = false)
    (hne : ds.Name ≠ cdnName)
    (hnn : ∀ d ∈ dses, (d.dsType.IsHTTP || d.dsType.IsDNS) = true → d.Name ≠ ds.Name) :
    ∃ b, mapLookup store2 cdnName = some b ∧ mapLookup b ds.Name = none := by
  obtain ⟨b, hb, rfl⟩ :=
    generateStoreDNSSECKeys_ok_elim store _ _ cdnName t kd zd eff store2 hrun
  refine ⟨b, mapLookup_mapInsert_self _ _ _, ?_⟩
  cases ho : mapLookup store cdnName with
  | none => rw [ho] at hb; simp [generateDNSSECKeysBundle] at hb
  | some oldKeys =>
    rw [ho, generateDNSSECKeysBundle_eq] at hb
    rw [processDSList_lookup_of_not_inserted cdnDomain ml _ _ kd zd eff dses _ b hb
      ds.Name hnn]
    simp [mapLookup, Ne.symm hne]

/-- C6 counterexample: an ANY_MAP delivery service whose xml-id equals
the CDN name: the rotation succeeds and the written bundle does have a
key set under that name (the CDN apex entry), refuting the unconditional
claim. -/
theorem ineligible_ds_name_collision_cx :
    (generateStoreDNSSECKeys warmStore (.ok ([anyMapDS], "example.net")) (.ok [])
        "cdn-a" 3600 365 30 500).2 = none ∧
      anyMapDS ∈ [anyMapDS] ∧
      (anyMapDS.dsType.IsHTTP || anyMapDS.dsType.IsDNS) = false ∧
      anyMapDS.Name = "cdn-a" ∧
      (mapLookup ((mapLookup (generateStoreDNSSECKeys warmStore
          (.ok ([anyMapDS], "example.net")) (.ok []) "cdn-a" 3600 365 30 500).1
          "cdn-a").getD []) anyMapDS.Name).isSome = true :=
  ⟨by decide, by decide, by decide, by decide, by decide⟩

/-- C6 witness: an ANY_MAP delivery service with a non-colliding xml-id
is absent from the written bundle. -/
theorem ineligible_ds_absent_witness :
    generateStoreDNSSECKeys warmStore (.ok ([otherAnyMapDS], "example.net")) (.ok [])
        "cdn-a" 3600 365 30 500 =
      ((generateStoreDNSSECKeys warmStore (.ok ([otherAnyMapDS], "example.net")) (.ok [])
        "cdn-a" 3600 365 30 500).1, none) ∧
      ∃ b, mapLookup (generateStoreDNSSECKeys warmStore
          (.ok ([otherAnyMapDS], "example.net")) (.ok []) "cdn-a" 3600 365 30 500).1
          "cdn-a" = some b ∧
        mapLookup b otherAnyMapDS.Name = none := by
  refine ⟨by decide, ?_⟩
  exact ineligible_ds_absent_amended warmStore _ [otherAnyMapDS] "example.net" []
    "cdn-a" 3600 365 30 500 otherAnyMapDS (by decide) (by decide) (by decide)
    (by decide) (by decide)

/-- C7: `FinishTx` and `FinishTxX` do nothing for a nil transaction,
commit exactly when the flag is true at call time and roll back exactly
when it is false; the GenerateOrRefresh handler sets the flag to true
exactly when `generateStoreDNSSECKeys` returned without error, so on any
rotation failure the transaction is rolled back. -/
theorem finishTx_gates_commit (tx : Unit) (b : Bool) (store : KVStore)
    (dsesRes : Except String (List CDNDS × String))
    (mlRes : Except String (List (String × MatchList)))
    (r : CDNDNSSECGenerateReq) (now : Int) :
    FinishTx none b = TxAction.nothing ∧
      FinishTxX none b = TxAction.nothing ∧
      (FinishTx (some tx) b = TxAction.commit ↔ b = true) ∧
      (FinishTx (some tx) b = TxAction.rollback ↔ b = false) ∧
      (FinishTxX (some tx) b = TxAction.commit ↔ b = true) ∧
      (FinishTxX (some tx) b = TxAction.rollback ↔ b = false) ∧
      ((CreateDNSSECKeys store dsesRes mlRes (some r) now).commitTx = true ↔
        (generateStoreDNSSECKeys store dsesRes mlRes r.Key r.TTL r.KSKExpirationDays
          r.ZSKExpirationDays (r.EffectiveDateUnix.getD now)).2 = none) ∧
      ((generateStoreDNSSECKeys store dsesRes mlRes r.Key r.TTL r.KSKExpirationDays
          r.ZSKExpirationDays (r.EffectiveDateUnix.getD now)).2 ≠ none →
        FinishTx (some tx) (CreateDNSSECKeys store dsesRes mlRes (some r) now).commitTx =
          TxAction.rollback) := by
  refine ⟨rfl, rfl, ?_, ?_, ?_, ?_, ?_, ?_⟩
  · cases b <;> simp [FinishTx]
  · cases b <;> simp [FinishTx]
  · cases b <;> simp [FinishTxX]
  · cases b <;> simp [FinishTxX]
  · cases hr : generateStoreDNSSECKeys store dsesRes mlRes r.Key r.TTL r.KSKExpirationDays
        r.ZSKExpirationDays (r.EffectiveDateUnix.getD now) with
    | mk s2 o => cases o <;> simp [CreateDNSSECKeys, hr]
  · intro hne
    cases hr : generateStoreDNSSECKeys store dsesRes mlRes r.Key r.TTL r.KSKExpirationDays
        r.ZSKExpirationDays (r.EffectiveDateUnix.getD now) with
    | mk s2 o =>
      cases o with
      | none => rw [hr] at hne; simp at hne
      | some e => simp [CreateDNSSECKeys, hr, FinishTx]

/-- C7 witness: a rotation failure (empty KV store) leaves the handler's
commit flag false, so `FinishTx` rolls the transaction back. -/
theorem finishTx_gates_commit_witness :
    FinishTx (some ())
        (CreateDNSSECKeys [] (.ok ([], "example.net")) (.ok [])
          (some { Key := "cdn-a", TTL := 3600, KSKExpirationDays := 365,
                  ZSKExpirationDays := 30, EffectiveDateUnix := some 100 }) 0).commitTx =
      TxAction.rollback :=
  (finishTx_gates_commit () true [] (.ok ([], "example.net")) (.ok [])
    { Key := "cdn-a", TTL := 3600, KSKExpirationDays := 365,
      ZSKExpirationDays := 30, EffectiveDateUnix := some 100 } 0).2.2.2.2.2.2.2 (by decide)
